import Mathlib

/-!
Shallow embedding of the `pw-loopback` tool (`src/tools/pw-loopback.c`) and of
the pulse null-sink factory (`src/modules/module-protocol-pulse/module-null-sink.c`).

Machine strings stay `String`; counters and ids are `Nat`; C `int` results are
`Int` (negative errno convention).  The pipewire property dictionary
(`pw_properties`) is an ordered association list with unique keys:
`pw_properties_set` overwrites in place, `pw_properties_set(.., NULL)` removes.
-/

namespace PW

/-- Ordered string-to-string dictionary, the shallow embedding of
`struct pw_properties`. Keys are unique; `set` overwrites the first (only)
occurrence in place, preserving insertion order. -/
abbrev Props := List (String × String)

namespace Props

/-- `pw_properties_get`: first value stored under `k`, or none. -/
def get : Props → String → Option String
  | [], _ => none
  | (k2, v) :: rest, k => if k2 = k then some v else get rest k

/-- `pw_properties_set` with a non-NULL value: overwrite in place or append. -/
def set : Props → String → String → Props
  | [], k, v => [(k, v)]
  | (k2, v2) :: rest, k, v =>
      if k2 = k then (k, v) :: rest else (k2, v2) :: set rest k v

/-- `pw_properties_set` with a NULL value: remove the key. -/
def remove : Props → String → Props
  | [], _ => []
  | (k2, v2) :: rest, k =>
      if k2 = k then remove rest k else (k2, v2) :: remove rest k

/-- `pw_properties_update`-style merge: set every pair, in order. -/
def update (p : Props) (items : List (String × String)) : Props :=
  items.foldl (fun q kv => set q kv.1 kv.2) p

end Props

/-! ### Realtime buffer forwarding (`capture_process`, pw-loopback.c:66-84)

A `pw_buffer` is a slot identity plus a pointer to an `spa_buffer`; the
statement `*out->buffer = *in->buffer` copies the pointed-to descriptor
(the data-pointer vector and chunk metadata), not the sample bytes.  The
sample bytes live in daemon-owned shared memory, modelled by the `mem`
field, which the callback never touches. -/

/-- The buffer descriptor copied by `*out->buffer = *in->buffer`: data pointer
vector, frame count (chunk size) and stride. -/
structure SpaBuffer where
  datas : List Nat
  chunkSize : Nat
  stride : Nat
deriving DecidableEq, Repr

/-- A `struct pw_buffer`: a stable slot identity plus its descriptor. -/
structure PwBuffer where
  id : Nat
  buffer : SpaBuffer
deriving DecidableEq, Repr

/-- The dequeueable ring and the returned ring of one stream. -/
structure StreamBufs where
  avail : List PwBuffer
  queued : List PwBuffer
deriving DecidableEq, Repr

/-- `pw_stream_dequeue_buffer`: take the next available buffer, or none. -/
def StreamBufs.dequeue (s : StreamBufs) : Option PwBuffer × StreamBufs :=
  match s.avail with
  | [] => (none, s)
  | b :: rest => (some b, { s with avail := rest })

/-- `pw_stream_queue_buffer`: hand a buffer back to the daemon. -/
def StreamBufs.queue (s : StreamBufs) (b : PwBuffer) : StreamBufs :=
  { s with queued := s.queued ++ [b] }

/-- Joint state seen by the realtime callback: the two streams and the
daemon-owned shared sample memory. -/
structure LoopState where
  capture : StreamBufs
  playback : StreamBufs
  mem : List Nat
deriving DecidableEq, Repr

/-- `capture_process` (pw-loopback.c:66-84): dequeue capture, dequeue
playback, copy the descriptor when both succeeded, queue back whatever was
dequeued.  Sample memory is never read or written. -/
def capture_process (s : LoopState) : LoopState :=
  let dIn := s.capture.dequeue
  let dOut := s.playback.dequeue
  let outB : Option PwBuffer :=
    match dIn.1, dOut.1 with
    | some i, some o => some { o with buffer := i.buffer }
    | _, o => o
  let cap :=
    match dIn.1 with
    | some i => dIn.2.queue i
    | none => dIn.2
  let pb :=
    match outB with
    | some o => dOut.2.queue o
    | none => dOut.2
  { capture := cap, playback := pb, mem := s.mem }

/-- Which of the two streams an event belongs to. -/
inductive StreamSide where
  | cap
  | play
deriving DecidableEq, Repr

/-- Observable buffer-ring events of one callback invocation. -/
inductive Ev where
  | dequeued (w : StreamSide) (ok : Bool)
  | queuedEv (w : StreamSide) (id : Nat)
deriving DecidableEq, Repr

/-- The event trace of one `capture_process` invocation, in program order
(pw-loopback.c lines 71, 74, 81, 83). -/
def capture_process_trace (s : LoopState) : List Ev :=
  let dIn := s.capture.dequeue
  let dOut := s.playback.dequeue
  [Ev.dequeued .cap dIn.1.isSome, Ev.dequeued .play dOut.1.isSome]
    ++ (match dIn.1 with
        | some i => [Ev.queuedEv .cap i.id]
        | none => [])
    ++ (match dOut.1 with
        | some o => [Ev.queuedEv .play o.id]
        | none => [])

/-- Number of queue operations on side `w` in a trace. -/
def countQueued (t : List Ev) (w : StreamSide) : Nat :=
  (t.filter fun e =>
    match e with
    | .queuedEv w2 _ => w2 == w
    | _ => false).length

/-! ### Configuration resolution (`main`, pw-loopback.c:193-335)

String-to-number parsing (`atoi`) and the k=v property-bag syntax of
`pw_properties_update_string` are library collaborators; options arrive
here already lexed, carrying the parsed payload the corresponding
`case` label stores.  Recognized options only: unknown flags make
`getopt_long` print usage and `main` return -1 before any of the state
below is consulted. -/

def DEFAULT_RATE : Nat := 48000
def DEFAULT_CHANNELS : Nat := 2
def DEFAULT_CHANNEL_MAP : String := "[ FL, FR ]"
def SPA_MSEC_PER_SEC : Nat := 1000

/-- One recognized command-line option, with its parsed payload. -/
inductive Opt where
  | group (g : String)
  | channels (n : Nat)
  | channelMap (m : String)
  | latencyMs (ms : Nat)
  | captureTarget (t : String)
  | playbackTarget (t : String)
  | capturePropsOpt (ps : List (String × String))
  | playbackPropsOpt (ps : List (String × String))

/-- The configuration slice of `struct data` built by `main`.
`opt_group_name` is never NULL: it is initialised to the
`argv[0]-<pid>` string (`snprintf` of a non-empty format cannot return
a non-positive count here), so it is a plain `String`. -/
structure MainState where
  channels : Nat
  latency : Nat
  groupName : String
  channelMap : String
  captureProps : Props
  playbackProps : Props
deriving Repr

/-- `struct data` right before the `getopt_long` loop
(pw-loopback.c:216-223). -/
def initState (defaultGroup : String) : MainState :=
  { channels := DEFAULT_CHANNELS
    latency := 0
    groupName := defaultGroup
    channelMap := DEFAULT_CHANNEL_MAP
    captureProps := []
    playbackProps := [] }

/-- One iteration of the `getopt_long` switch (pw-loopback.c:229-273). -/
def applyOpt (st : MainState) : Opt → MainState
  | .group g => { st with groupName := g }
  | .channels n => { st with channels := n }
  | .channelMap m => { st with channelMap := m }
  | .latencyMs ms => { st with latency := ms * DEFAULT_RATE / SPA_MSEC_PER_SEC }
  | .captureTarget t => { st with captureProps := st.captureProps.set "node.target" t }
  | .playbackTarget t => { st with playbackProps := st.playbackProps.set "node.target" t }
  | .capturePropsOpt ps => { st with captureProps := st.captureProps.update ps }
  | .playbackPropsOpt ps => { st with playbackProps := st.playbackProps.update ps }

/-- The whole option loop, left to right over the command line. -/
def processOpts (defaultGroup : String) (opts : List Opt) : MainState :=
  opts.foldl applyOpt (initState defaultGroup)

/-- After the loop, `main` writes the node group and, when the latency is
non-zero, the latency fraction into both dictionaries
(pw-loopback.c:291-300). -/
def finalizeProps (st : MainState) : MainState :=
  let cap := st.captureProps.set "node.group" st.groupName
  let pb := st.playbackProps.set "node.group" st.groupName
  if st.latency ≠ 0 then
    { st with
        captureProps := cap.set "node.latency" (toString st.latency ++ "/" ++ toString DEFAULT_RATE)
        playbackProps := pb.set "node.latency" (toString st.latency ++ "/" ++ toString DEFAULT_RATE) }
  else
    { st with captureProps := cap, playbackProps := pb }

/-! ### Stream setup (`setup_streams`, pw-loopback.c:95-149) -/

inductive Direction where
  | input
  | output
deriving DecidableEq, Repr

inductive AudioFormat where
  | F32P
deriving DecidableEq, Repr

/-- The single `SPA_PARAM_EnumFormat` pod built at pw-loopback.c:124-128. -/
structure AudioInfoRaw where
  flagUnpositioned : Bool
  format : AudioFormat
  channels : Nat
deriving DecidableEq, Repr

/-- Arguments of one `pw_stream_connect` call (pw-loopback.c:130-146). -/
structure ConnectCall where
  direction : Direction
  flagAutoconnect : Bool
  flagMapBuffers : Bool
  flagRtProcess : Bool
  params : List AudioInfoRaw
deriving DecidableEq, Repr

/-- The two connect calls `setup_streams` issues; both use the one shared
`params` array.  Nothing else of the configuration — in particular not the
channel-map string — reaches them. -/
def setupConnectCalls (channels : Nat) : ConnectCall × ConnectCall :=
  let params := [{ flagUnpositioned := true, format := .F32P, channels : AudioInfoRaw }]
  ({ direction := .input, flagAutoconnect := true, flagMapBuffers := true,
     flagRtProcess := true, params },
   { direction := .output, flagAutoconnect := true, flagMapBuffers := true,
     flagRtProcess := true, params })

/-- Environment outcomes of the fallible steps inside `setup_streams`. -/
structure SetupEnv where
  captureNewOk : Bool
  playbackNewOk : Bool
  errnoVal : Int
  captureConnectRes : Int
  playbackConnectRes : Int

/-- Return value of `setup_streams` (pw-loopback.c:95-149): `-errno` when a
stream cannot be created, the first negative connect result, else 0. -/
def setup_streams_res (e : SetupEnv) : Int :=
  if ¬ e.captureNewOk then -e.errnoVal
  else if ¬ e.playbackNewOk then -e.errnoVal
  else if e.captureConnectRes < 0 then e.captureConnectRes
  else if e.playbackConnectRes < 0 then e.playbackConnectRes
  else 0

/-! ### Error listener and exit code (pw-loopback.c:151-160, 275-335) -/

def PW_ID_CORE : Nat := 0
def EPIPE : Int := 32

/-- `on_core_error` (pw-loopback.c:151-160), as its two observable effects:
it always logs, and it calls `pw_main_loop_quit` exactly when the error is
addressed to the core object with code `-EPIPE`. -/
def on_core_error (id : Nat) (res : Int) : Bool × Bool :=
  (true, id == PW_ID_CORE && res == -EPIPE)

/-- Environment outcomes of the fallible steps in `main`. -/
structure MainEnv where
  propsOk : Bool
  loopOk : Bool
  contextOk : Bool
  coreOk : Bool
  setup : SetupEnv

/-- Exit code of `main` once it passes option parsing (pw-loopback.c:222-335):
each failed construction jumps to `exit` with `res = -1`; otherwise
`setup_streams(&data)` is called with its result DISCARDED (line 316), the
loop runs until quit, and `res` is set to 0. -/
def mainExitCode (env : MainEnv) : Int :=
  if ¬ env.propsOk then -1
  else if ¬ env.loopOk then -1
  else if ¬ env.contextOk then -1
  else if ¬ env.coreOk then -1
  else 0

/-- Whether both `pw_stream_new` calls happened and succeeded during the run
(so two stream objects exist). -/
def mainStreamsCreated (env : MainEnv) : Bool :=
  env.propsOk && env.loopOk && env.contextOk && env.coreOk &&
    env.setup.captureNewOk && env.setup.playbackNewOk

/-! ### Null-sink factory (`create_module_null_sink`, module-null-sink.c:119-220)

Two collaborators of this file live elsewhere in the repository and are
passed in as parameters, faithful to the spec:

* `parse` — Modelled from the spec: `add_props` feeds a module-argument
  string through the §4.1 property-bag syntax (whitespace-separated
  `k=v` or `k="v with spaces"` tokens) and sets each resulting pair in
  order; the lexing itself is the `parse` parameter, the in-order
  merging is `add_props` below.
* `parseMap` — Modelled from the spec: `channel_map_parse` accepts
  `[ FL, FR, … ]` or `FL,FR,…` and yields position tags plus a count
  (§4.2); the source ignores its return status, keeping whatever map
  the call produced.
-/

/-- SPA channel tags used here (spa/param/audio/raw.h values). -/
def SPA_AUDIO_CHANNEL_UNKNOWN : Nat := 0
def SPA_AUDIO_CHANNEL_MONO : Nat := 2
def SPA_AUDIO_CHANNEL_FL : Nat := 3
def SPA_AUDIO_CHANNEL_FR : Nat := 4

/-- `struct channel_map`: a count plus that many position tags (tags beyond
the ones written stay 0, i.e. UNKNOWN, as in the zero-initialised array). -/
structure ChannelMap where
  pos : List Nat
  channels : Nat
deriving DecidableEq, Repr

/-- Modelled from the spec: `channel_id2name` maps a position tag to its
canonical name (§4.2, glossary); only the tags exercised here are named. -/
def channel_id2name (c : Nat) : String :=
  if c = SPA_AUDIO_CHANNEL_MONO then "MONO"
  else if c = SPA_AUDIO_CHANNEL_FL then "FL"
  else if c = SPA_AUDIO_CHANNEL_FR then "FR"
  else "UNK"

/-- `atoi` on the strings reaching it here: value of a decimal numeral,
0 for non-numeric input. -/
def atoi_u32 (s : String) : Nat :=
  if s.data ≠ [] ∧ s.data.all Char.isDigit then
    s.data.foldl (fun n c => n * 10 + (c.toNat - 48)) 0
  else 0

/-- Build-time version macro; its value is free. -/
def PACKAGE_VERSION : String := "0.3.24"

/-- `module_null_sink_info` (module-null-sink.c:107-117). -/
def module_null_sink_info : Props :=
  [("module.author", "Wim Taymans <wim.taymans@gmail.com>"),
   ("module.description", "A NULL sink"),
   ("module.usage",
    "sink_name=<name of sink> sink_properties=<properties for the sink> " ++
    "format=<sample format> rate=<sample rate> channels=<number of channels> " ++
    "channel_map=<channel map>"),
   ("module.version", PACKAGE_VERSION)]

/-- `add_props`: set each parsed pair, in order. -/
def add_props (p : Props) (items : List (String × String)) : Props :=
  p.update items

/-- `impl->defs`: the daemon-wide default sample spec and channel map. -/
structure NullSinkDefaults where
  sampleSpecChannels : Nat
  channelMapDefault : ChannelMap

/-- module-null-sink.c:129-135: the info dictionary, merged with the parsed
module argument when one is given. -/
def nullSinkArgProps (parse : String → List (String × String))
    (argument : Option String) : Props :=
  match argument with
  | some a => add_props module_null_sink_info (parse a)
  | none => module_null_sink_info

/-- module-null-sink.c:137-142: consume `sink_name` into `node.name`. -/
def nullSinkNameStep (p : Props) : Props :=
  match p.get "sink_name" with
  | some s => (p.set "node.name" s).remove "sink_name"
  | none => p.set "node.name" "null"

/-- module-null-sink.c:143-146: expand and consume `sink_properties`. -/
def nullSinkPropsStep (parse : String → List (String × String)) (p : Props) : Props :=
  match p.get "sink_properties" with
  | some s => (add_props p (parse s)).remove "sink_properties"
  | none => p

/-- module-null-sink.c:147-154: consume `channels` into `audio.channels`,
returning the resolved channel count. -/
def nullSinkChannelsStep (defs : NullSinkDefaults) (p : Props) : Props × Nat :=
  match p.get "channels" with
  | some s => ((p.set "audio.channels" s).remove "channels", atoi_u32 s)
  | none => (p.set "audio.channels" (toString defs.sampleSpecChannels),
             defs.sampleSpecChannels)

/-- module-null-sink.c:155-158: consume `rate` into `audio.rate`. -/
def nullSinkRateStep (p : Props) : Props :=
  match p.get "rate" with
  | some s => (p.set "audio.rate" s).remove "rate"
  | none => p

/-- module-null-sink.c:159-170: consume `channel_map`, or derive the map
from the defaults (wholesale when the count matches, UNKNOWN-filled
otherwise). -/
def nullSinkMapStep (parseMap : String → ChannelMap) (defs : NullSinkDefaults)
    (channels : Nat) (p : Props) : Props × ChannelMap :=
  match p.get "channel_map" with
  | some s => (p.remove "channel_map", parseMap s)
  | none =>
      (p, if channels = defs.channelMapDefault.channels then defs.channelMapDefault
          else { pos := List.replicate channels SPA_AUDIO_CHANNEL_UNKNOWN
                 channels := channels })

/-- Everything before the length check at module-null-sink.c:171: the
dictionary plus the resolved channel count and map. -/
def nullSinkResolve (parse : String → List (String × String))
    (parseMap : String → ChannelMap) (defs : NullSinkDefaults)
    (argument : Option String) : Props × Nat × ChannelMap :=
  let p := nullSinkArgProps parse argument
  let p := nullSinkNameStep p
  let p := nullSinkPropsStep parse p
  let pc := nullSinkChannelsStep defs p
  let p := nullSinkRateStep pc.1
  let pm := nullSinkMapStep parseMap defs pc.2 p
  (pm.1, pc.2, pm.2)

/-- module-null-sink.c:177-184: the canonical comma-separated position
string written under `audio.position` (the loop reads `map.map[i]` for
`i < map.channels`; unwritten array slots are 0). -/
def emitPositions (m : ChannelMap) : String :=
  String.intercalate "," ((List.range m.channels).map fun i =>
    channel_id2name (m.pos.getD i 0))

/-- module-null-sink.c:177-184: write `audio.position` when the map is
non-empty. -/
def nullSinkPositionStep (map : ChannelMap) (p : Props) : Props :=
  if map.channels > 0 then p.set "audio.position" (emitPositions map) else p

/-- module-null-sink.c:186-187: default `media.class` to `Audio/Sink`. -/
def nullSinkClassStep (p : Props) : Props :=
  match p.get "media.class" with
  | some _ => p
  | none => p.set "media.class" "Audio/Sink"

/-- module-null-sink.c:189-201: consume `device.description` into
`node.description`, or synthesise one from node name and media class. -/
def nullSinkDescriptionStep (p : Props) : Props :=
  match p.get "device.description" with
  | some s => (p.set "node.description" s).remove "device.description"
  | none =>
      let name := (p.get "node.name").getD ""
      let cls := p.get "media.class"
      p.set "node.description"
        (name ++ (if name = "" then "" else " ") ++ cls.getD "" ++
         (if (cls.getD "") = "" then "" else " ") ++ "sink")

/-- module-null-sink.c:177-204: position, media class, description and the
factory keys, applied after the length check passed. -/
def nullSinkFinish (p : Props) (map : ChannelMap) : Props :=
  ((nullSinkDescriptionStep (nullSinkClassStep
      (nullSinkPositionStep map p))).set "factory.name"
    "support.null-audio-sink").set "object.linger" "true"

/-- `create_module_null_sink` (module-null-sink.c:119-220) up to the
allocation of the module object: the error branch is the
`map.channels != channels` check, which fails with `errno = EINVAL` (22)
before `module_new` runs; on success the final dictionary becomes
`module->props`. -/
def create_module_null_sink (parse : String → List (String × String))
    (parseMap : String → ChannelMap) (defs : NullSinkDefaults)
    (argument : Option String) : Except Nat Props :=
  let r := nullSinkResolve parse parseMap defs argument
  if r.2.2.channels ≠ r.2.1 then Except.error 22
  else Except.ok (nullSinkFinish r.1 r.2.2)

/-! ### Concrete runs used as evidence -/

/-- A run in which every fallible construction step succeeds and both
connects are accepted. -/
def allOkSetup : SetupEnv :=
  { captureNewOk := true, playbackNewOk := true, errnoVal := 0
    captureConnectRes := 0, playbackConnectRes := 0 }

def allOkEnv : MainEnv :=
  { propsOk := true, loopOk := true, contextOk := true, coreOk := true
    setup := allOkSetup }

/-- A run in which the daemon synchronously refuses the capture connect
with `-EINVAL` (= -22). -/
def refusedSetup : SetupEnv :=
  { captureNewOk := true, playbackNewOk := true, errnoVal := 0
    captureConnectRes := -22, playbackConnectRes := 0 }

def refusedEnv : MainEnv :=
  { propsOk := true, loopOk := true, contextOk := true, coreOk := true
    setup := refusedSetup }

/-- A callback state with one buffer available on each side. -/
def bothReadyState : LoopState :=
  { capture := { avail := [⟨1, ⟨[10, 11], 64, 4⟩⟩], queued := [] }
    playback := { avail := [⟨2, ⟨[20, 21], 8, 4⟩⟩], queued := [] }
    mem := [5, 6, 7] }

/-- A callback state in which only the playback side has a buffer; its
descriptor still references 96 frames of stale data. -/
def playbackOnlyState : LoopState :=
  { capture := { avail := [], queued := [] }
    playback := { avail := [⟨7, ⟨[40, 41], 96, 4⟩⟩], queued := [] }
    mem := [1, 2, 3] }

/-- Default sample spec and map of a daemon configured for stereo. -/
def stereoDefaults : NullSinkDefaults :=
  { sampleSpecChannels := 2
    channelMapDefault := { pos := [SPA_AUDIO_CHANNEL_FL, SPA_AUDIO_CHANNEL_FR], channels := 2 } }

/-- The §4.1 bag lexer restricted to the two strings of the leak run:
the module argument carries a quoted `sink_properties` whose value in
turn defines `sink_name`. -/
def leakParse : String → List (String × String) := fun s =>
  if s = "sink_properties=\"sink_name=foo\"" then [("sink_properties", "sink_name=foo")]
  else if s = "sink_name=foo" then [("sink_name", "foo")]
  else []

/-- A map lexer that parses nothing (never consulted on the leak run). -/
def nullMapParse : String → ChannelMap := fun _ => { pos := [], channels := 0 }

/-- The §4.1 bag lexer restricted to the mismatch run `channels=2
channel_map=[ FL ]`. -/
def mismatchParse : String → List (String × String) := fun s =>
  if s = "channels=2 channel_map=[ FL ]" then [("channels", "2"), ("channel_map", "[ FL ]")]
  else []

/-- The §4.2 map lexer restricted to the mismatch run: `[ FL ]` is one
front-left channel. -/
def mismatchMapParse : String → ChannelMap := fun s =>
  if s = "[ FL ]" then { pos := [SPA_AUDIO_CHANNEL_FL], channels := 1 }
  else { pos := [], channels := 0 }

/-- The bag lexer of a run with no module argument at all. -/
def emptyBagParse : String → List (String × String) := fun _ => []

/-- The dictionary the factory produces for a missing argument on a stereo
daemon. -/
def nullDefaultProps : Props :=
  [("module.author", "Wim Taymans <wim.taymans@gmail.com>"),
   ("module.description", "A NULL sink"),
   ("module.usage",
    "sink_name=<name of sink> sink_properties=<properties for the sink> " ++
    "format=<sample format> rate=<sample rate> channels=<number of channels> " ++
    "channel_map=<channel map>"),
   ("module.version", PACKAGE_VERSION),
   ("node.name", "null"),
   ("audio.channels", "2"),
   ("audio.position", "FL,FR"),
   ("media.class", "Audio/Sink"),
   ("node.description", "null Audio/Sink sink"),
   ("factory.name", "support.null-audio-sink"),
   ("object.linger", "true")]

/-! ## Dictionary lemmas -/

theorem Props.get_set (p : Props) (a v k : String) :
    (p.set a v).get k = if a = k then some v else p.get k := by
  induction p with
  | nil => simp [set, get]
  | cons hd tl ih =>
      obtain ⟨k2, v2⟩ := hd
      by_cases h1 : k2 = a
      · subst h1
        by_cases h2 : k2 = k <;> simp [set, get, h2]
      · by_cases h2 : k2 = k
        · subst h2
          have hne : ¬ a = k2 := fun h => h1 h.symm
          simp [set, get, h1, hne]
        · simp [set, get, h1, h2, ih]

theorem Props.get_remove (p : Props) (a k : String) :
    (p.remove a).get k = if a = k then none else p.get k := by
  induction p with
  | nil => simp [remove, get]
  | cons hd tl ih =>
      obtain ⟨k2, v2⟩ := hd
      by_cases h1 : k2 = a
      · subst h1
        simp only [remove, if_pos rfl, get]
        by_cases h2 : k2 = k
        · subst h2
          simp [ih]
        · simp [h2, ih]
      · simp only [remove, if_neg h1, get]
        by_cases h2 : k2 = k
        · subst h2
          have hne : ¬ a = k2 := fun h => h1 h.symm
          simp [ih, hne]
        · simp [ih, h2]

theorem Props.get_update_notin (p : Props) (items : List (String × String)) (k : String)
    (h : ∀ kv ∈ items, kv.1 ≠ k) : (p.update items).get k = p.get k := by
  induction items generalizing p with
  | nil => simp [update]
  | cons hd tl ih =>
      have hhd : hd.1 ≠ k := h hd (List.mem_cons_self hd tl)
      have htl : ∀ kv ∈ tl, kv.1 ≠ k := fun kv hm => h kv (List.mem_cons_of_mem hd hm)
      simp only [update, List.foldl_cons]
      rw [show (List.foldl (fun q kv => set q kv.1 kv.2) (set p hd.1 hd.2) tl)
        = update (set p hd.1 hd.2) tl from rfl, ih _ htl, get_set]
      simp [hhd]

/-! ## Claims about the realtime callback -/

/-- C1: in `capture_process`, whenever both dequeues succeed the playback
buffer is queued back carrying the capture buffer's descriptor (data
pointer vector, frame count, stride); sample memory is never written
(no per-sample byte copy); when either dequeue fails, every buffer that
is queued back keeps its own descriptor unchanged. -/
theorem capture_process_descriptor_forwarding (s : LoopState) :
    (capture_process s).mem = s.mem ∧
    (∀ i cs o ps, s.capture.avail = i :: cs → s.playback.avail = o :: ps →
      (capture_process s).playback.queued =
        s.playback.queued ++ [{ id := o.id, buffer := i.buffer }]) ∧
    ((s.capture.avail = [] ∨ s.playback.avail = []) →
      (capture_process s).playback.queued = s.playback.queued ++ s.playback.avail.take 1) := by
  obtain ⟨⟨ca, cq⟩, ⟨pa, pq⟩, m⟩ := s
  cases ca <;> cases pa <;>
    simp [capture_process, StreamBufs.dequeue, StreamBufs.queue] <;>
    intro i cs o ps hi ho <;>
    simp_all

/-- C1 witness: on a state with one buffer ready on each side, the playback
slot is queued back aimed at the capture frames. -/
theorem capture_process_descriptor_forwarding_witness :
    (capture_process bothReadyState).playback.queued =
      [{ id := 2, buffer := { datas := [10, 11], chunkSize := 64, stride := 4 } }] := by
  have h := (capture_process_descriptor_forwarding bothReadyState).2.1
    ⟨1, ⟨[10, 11], 64, 4⟩⟩ [] ⟨2, ⟨[20, 21], 8, 4⟩⟩ [] rfl rfl
  simpa using h

/-- C2: per invocation and per stream, `capture_process` queues exactly one
buffer when the dequeue succeeded and none when it failed; the queued
buffer is the dequeued one (same slot), so nothing is held across
invocations. -/
theorem capture_process_queue_discipline (s : LoopState) :
    countQueued (capture_process_trace s) .cap = (if s.capture.avail = [] then 0 else 1) ∧
    countQueued (capture_process_trace s) .play = (if s.playback.avail = [] then 0 else 1) ∧
    (capture_process s).capture.queued = s.capture.queued ++ s.capture.avail.take 1 ∧
    (capture_process s).capture.avail = s.capture.avail.drop 1 ∧
    (capture_process s).playback.queued.map PwBuffer.id =
      (s.playback.queued ++ s.playback.avail.take 1).map PwBuffer.id ∧
    (capture_process s).playback.avail = s.playback.avail.drop 1 := by
  obtain ⟨⟨ca, cq⟩, ⟨pa, pq⟩, m⟩ := s
  cases ca <;> cases pa <;>
    simp [capture_process, capture_process_trace, countQueued,
      StreamBufs.dequeue, StreamBufs.queue]

/-- C4 counterexample: when only the playback dequeue succeeds, the
playback buffer is queued back bit-identical (96 stale frames intact) and
memory untouched — its contents are NOT replaced by a silent frame. -/
theorem playback_only_not_emptied_cex :
    (capture_process playbackOnlyState).playback.queued =
      [{ id := 7, buffer := { datas := [40, 41], chunkSize := 96, stride := 4 } }] ∧
    ({ id := 7, buffer := { datas := [40, 41], chunkSize := 96, stride := 4 } } :
      PwBuffer).buffer.chunkSize ≠ 0 ∧
    (capture_process playbackOnlyState).mem = playbackOnlyState.mem := by
  refine ⟨rfl, by decide, rfl⟩

/-- C4 amended: when the capture dequeue fails, the playback buffer (when
one was dequeued) is queued back unmodified — no clearing, no descriptor
copy, no memory write. -/
theorem playback_only_requeued_unmodified (s : LoopState)
    (hcap : s.capture.avail = []) :
    (capture_process s).playback.queued = s.playback.queued ++ s.playback.avail.take 1 ∧
    (capture_process s).mem = s.mem := by
  obtain ⟨⟨ca, cq⟩, ⟨pa, pq⟩, m⟩ := s
  simp only at hcap
  subst hcap
  cases pa <;> simp [capture_process, StreamBufs.dequeue, StreamBufs.queue]

/-- C4 amended witness: the concrete playback-only state. -/
theorem playback_only_requeued_unmodified_witness :
    (capture_process playbackOnlyState).playback.queued =
      [{ id := 7, buffer := { datas := [40, 41], chunkSize := 96, stride := 4 } }] ∧
    (capture_process playbackOnlyState).mem = [1, 2, 3] := by
  have h := playback_only_requeued_unmodified playbackOnlyState rfl
  simpa [playbackOnlyState] using h

/-! ## Claims about configuration resolution -/

/-- Shared helper: whatever the parsed options put into the dictionaries,
`finalizeProps` writes `node.group` (from the always-present group name)
into both, and touches no key other than `node.group` and `node.latency`. -/
theorem finalizeProps_get (st : MainState) :
    (finalizeProps st).captureProps.get "node.group" = some st.groupName ∧
    (finalizeProps st).playbackProps.get "node.group" = some st.groupName ∧
    ∀ k, k ≠ "node.group" → k ≠ "node.latency" →
      (finalizeProps st).captureProps.get k = st.captureProps.get k ∧
      (finalizeProps st).playbackProps.get k = st.playbackProps.get k := by
  unfold finalizeProps
  by_cases h : st.latency = 0
  · rw [if_neg (by simp [h])]
    refine ⟨?_, ?_, fun k hk1 hk2 => ⟨?_, ?_⟩⟩
    · rw [Props.get_set, if_pos rfl]
    · rw [Props.get_set, if_pos rfl]
    · rw [Props.get_set, if_neg (fun hh => hk1 hh.symm)]
    · rw [Props.get_set, if_neg (fun hh => hk1 hh.symm)]
  · rw [if_pos h]
    refine ⟨?_, ?_, fun k hk1 hk2 => ⟨?_, ?_⟩⟩
    · rw [Props.get_set, if_neg (by decide), Props.get_set, if_pos rfl]
    · rw [Props.get_set, if_neg (by decide), Props.get_set, if_pos rfl]
    · rw [Props.get_set, if_neg (fun hh => hk2 hh.symm), Props.get_set,
        if_neg (fun hh => hk1 hh.symm)]
    · rw [Props.get_set, if_neg (fun hh => hk2 hh.symm), Props.get_set,
        if_neg (fun hh => hk1 hh.symm)]

/-- C3 counterexample: with `-g mygroup --capture-props node.group=other`,
the capture stream's final `node.group` is `mygroup`, not the overlay's
`other` — the engine writes the group key AFTER the overlay was merged. -/
theorem node_group_overlay_overridden_cex :
    (finalizeProps (processOpts "me"
        [Opt.group "mygroup", Opt.capturePropsOpt [("node.group", "other")]])).captureProps.get
        "node.group" = some "mygroup" ∧
    (finalizeProps (processOpts "me"
        [Opt.group "mygroup", Opt.capturePropsOpt [("node.group", "other")]])).playbackProps.get
        "node.group" = some "mygroup" ∧
    some "mygroup" ≠ some "other" := by
  refine ⟨rfl, rfl, by decide⟩

/-- C3 amended: user overlays are merged during option parsing; the engine
writes `node.group` and (when non-zero) `node.latency` afterwards, so for
those two keys the engine wins, while every other overlay key reaches the
stream construction unchanged. -/
theorem engine_keys_written_after_overlays (st : MainState) (k : String)
    (h1 : k ≠ "node.group") (h2 : k ≠ "node.latency") :
    (finalizeProps st).captureProps.get "node.group" = some st.groupName ∧
    (finalizeProps st).playbackProps.get "node.group" = some st.groupName ∧
    (finalizeProps st).captureProps.get k = st.captureProps.get k ∧
    (finalizeProps st).playbackProps.get k = st.playbackProps.get k := by
  obtain ⟨hg1, hg2, hrest⟩ := finalizeProps_get st
  exact ⟨hg1, hg2, (hrest k h1 h2).1, (hrest k h1 h2).2⟩

/-- C3 amended witness: on the `-g mygroup` run with a `node.target`
overlay, the target key survives and the group key is the engine's. -/
theorem engine_keys_written_after_overlays_witness :
    (finalizeProps (processOpts "me"
        [Opt.group "mygroup", Opt.capturePropsOpt [("node.target", "mic")]])).captureProps.get
        "node.group" = some "mygroup" ∧
    (finalizeProps (processOpts "me"
        [Opt.group "mygroup", Opt.capturePropsOpt [("node.target", "mic")]])).captureProps.get
        "node.target" = some "mic" := by
  have h := engine_keys_written_after_overlays
    (processOpts "me" [Opt.group "mygroup", Opt.capturePropsOpt [("node.target", "mic")]])
    "node.target" (by decide) (by decide)
  exact ⟨h.1, h.2.2.1.trans rfl⟩

/-- C5: `on_core_error` requests a loop quit exactly for an error addressed
to the core object with code `-EPIPE`; every error is logged; and a run
that reached the loop exits with code 0 after the quit. -/
theorem core_error_policy (id : Nat) (res : Int) (env : MainEnv)
    (henv : env.propsOk = true ∧ env.loopOk = true ∧ env.contextOk = true ∧
      env.coreOk = true) :
    ((on_core_error id res).2 = true ↔ (id = PW_ID_CORE ∧ res = -EPIPE)) ∧
    (on_core_error id res).1 = true ∧
    mainExitCode env = 0 := by
  obtain ⟨h1, h2, h3, h4⟩ := henv
  refine ⟨?_, rfl, ?_⟩
  · simp [on_core_error, PW_ID_CORE, EPIPE]
  · simp [mainExitCode, h1, h2, h3, h4]

/-- C5 witness: the core/EPIPE error on an all-ok run. -/
theorem core_error_policy_witness :
    (((on_core_error 0 (-32)).2 = true ↔ (0 = PW_ID_CORE ∧ (-32 : Int) = -EPIPE)) ∧
      (on_core_error 0 (-32)).1 = true ∧
      mainExitCode allOkEnv = 0) ∧
    (on_core_error 0 (-32)).2 = true ∧
    (on_core_error 3 (-32)).2 = false ∧
    (on_core_error 0 (-5)).2 = false := by
  exact ⟨core_error_policy 0 (-32) allOkEnv ⟨rfl, rfl, rfl, rfl⟩, rfl, rfl, rfl⟩

/-- C6: `setup_streams` does report a synchronous connect refusal as a
negative result, but `main` discards that result (pw-loopback.c:316) and
still exits 0 — the code contradicts the documented non-zero-exit policy. -/
theorem setup_refused_still_exits_zero :
    setup_streams_res refusedSetup = -22 ∧
    setup_streams_res refusedSetup < 0 ∧
    mainExitCode refusedEnv = 0 ∧
    mainStreamsCreated refusedEnv = true := by
  refine ⟨rfl, by decide, rfl, rfl⟩

/-- C7 counterexample: `-c 2 -m "[ FL ]"` is accepted — the map string is
merely stored, both streams are created on a clean run, and the program
exits 0 rather than rejecting the mismatched configuration. -/
theorem channel_map_mismatch_accepted_cex :
    (processOpts "me" [Opt.channels 2, Opt.channelMap "[ FL ]"]).channels = 2 ∧
    (processOpts "me" [Opt.channels 2, Opt.channelMap "[ FL ]"]).channelMap = "[ FL ]" ∧
    mainStreamsCreated allOkEnv = true ∧
    mainExitCode allOkEnv = 0 := by
  refine ⟨rfl, rfl, rfl, rfl⟩

/-- C7 amended: the loopback tool never validates the channel map (its
streams are created and a clean run exits 0 whatever `-m` holds, the
format pod depending on the channel count alone); the length check lives
in the null-sink factory, where a map resolving to a different length
than the channel count fails with `EINVAL` (22) before the module object
is created. -/
theorem channel_map_check_in_null_sink_only (env : MainEnv)
    (henv : mainStreamsCreated env = true)
    (parse : String → List (String × String)) (parseMap : String → ChannelMap)
    (defs : NullSinkDefaults) (argument : Option String)
    (hmm : (nullSinkResolve parse parseMap defs argument).2.2.channels ≠
      (nullSinkResolve parse parseMap defs argument).2.1) :
    mainExitCode env = 0 ∧
    create_module_null_sink parse parseMap defs argument = Except.error 22 := by
  simp only [mainStreamsCreated, Bool.and_eq_true] at henv
  constructor
  · simp [mainExitCode, henv.1.1.1.1.1, henv.1.1.1.1.2, henv.1.1.1.2, henv.1.1.2]
  · simp [create_module_null_sink, hmm]

/-- C7 amended witness: the argument `channels=2 channel_map=[ FL ]` makes
the null-sink factory fail with EINVAL while the loopback run is
untouched. -/
theorem channel_map_check_in_null_sink_only_witness :
    mainExitCode allOkEnv = 0 ∧
    create_module_null_sink mismatchParse mismatchMapParse stereoDefaults
      (some "channels=2 channel_map=[ FL ]") = Except.error 22 := by
  exact channel_map_check_in_null_sink_only allOkEnv rfl
    mismatchParse mismatchMapParse stereoDefaults
    (some "channels=2 channel_map=[ FL ]") (by decide)

/-- C8: the latency option stores `frames = ms * 48000 / 1000`, which is
exact (`= 48 ms`, remainder 0, equal to round-half-up), and
`node.latency = frames/48000` is written into both dictionaries exactly
when `frames` is non-zero; when it rounds to zero the key is absent from
both. -/
theorem latency_frames_exact (ms : Nat) (g : String) :
    (processOpts g [Opt.latencyMs ms]).latency = ms * 48 ∧
    ms * 48000 % 1000 = 0 ∧
    (2 * (ms * 48000) + 1000) / 2000 = ms * 48000 / 1000 ∧
    ((processOpts g [Opt.latencyMs ms]).latency ≠ 0 →
      (finalizeProps (processOpts g [Opt.latencyMs ms])).captureProps.get "node.latency"
          = some (toString (ms * 48) ++ "/48000") ∧
      (finalizeProps (processOpts g [Opt.latencyMs ms])).playbackProps.get "node.latency"
          = some (toString (ms * 48) ++ "/48000")) ∧
    ((processOpts g [Opt.latencyMs ms]).latency = 0 →
      (finalizeProps (processOpts g [Opt.latencyMs ms])).captureProps.get "node.latency" = none ∧
      (finalizeProps (processOpts g [Opt.latencyMs ms])).playbackProps.get "node.latency" = none) := by
  have hval : (processOpts g [Opt.latencyMs ms]).latency = ms * 48 := by
    simp only [processOpts, List.foldl_cons, List.foldl_nil, applyOpt, initState,
      DEFAULT_RATE, SPA_MSEC_PER_SEC]
    omega
  have hprops : (processOpts g [Opt.latencyMs ms]).captureProps = [] ∧
      (processOpts g [Opt.latencyMs ms]).playbackProps = [] := ⟨rfl, rfl⟩
  have hstr : toString ((processOpts g [Opt.latencyMs ms]).latency) ++ "/" ++
      toString DEFAULT_RATE = toString (ms * 48) ++ "/48000" := by
    rw [hval, String.append_assoc]; rfl
  refine ⟨hval, by omega, by omega, ?_, ?_⟩
  · intro hne
    unfold finalizeProps
    rw [if_pos hne, hprops.1, hprops.2]
    constructor <;>
      simpa [Props.get_set] using congrArg some hstr
  · intro hz
    unfold finalizeProps
    rw [if_neg (by simp [hz]), hprops.1, hprops.2]
    constructor <;> simp [Props.get_set, Props.get]

/-- C8 witness: 20 ms becomes exactly 960 frames and the written fraction
is `960/48000`; 0 ms leaves the key absent. -/
theorem latency_frames_exact_witness :
    (processOpts "me" [Opt.latencyMs 20]).latency = 20 * 48 ∧
    (finalizeProps (processOpts "me" [Opt.latencyMs 20])).captureProps.get "node.latency"
      = some (toString (20 * 48) ++ "/48000") ∧
    (finalizeProps (processOpts "me" [Opt.latencyMs 0])).captureProps.get "node.latency"
      = none := by
  refine ⟨(latency_frames_exact 20 "me").1,
    ((latency_frames_exact 20 "me").2.2.2.1 (by decide)).1,
    ((latency_frames_exact 0 "me").2.2.2.2 (by decide)).1⟩

/-- C9: both streams are connected with the one shared format pod (planar
float-32, unpositioned, the configured channel count), with identical
connect flags, differing only in direction; and both final dictionaries
carry the identical `node.group` value. -/
theorem streams_identical_setup (st : MainState) :
    (setupConnectCalls st.channels).1.params = (setupConnectCalls st.channels).2.params ∧
    (setupConnectCalls st.channels).1.params =
      [{ flagUnpositioned := true, format := AudioFormat.F32P, channels := st.channels }] ∧
    (setupConnectCalls st.channels).1.direction = Direction.input ∧
    (setupConnectCalls st.channels).2.direction = Direction.output ∧
    (setupConnectCalls st.channels).1.flagAutoconnect
      = (setupConnectCalls st.channels).2.flagAutoconnect ∧
    (setupConnectCalls st.channels).1.flagMapBuffers
      = (setupConnectCalls st.channels).2.flagMapBuffers ∧
    (setupConnectCalls st.channels).1.flagRtProcess
      = (setupConnectCalls st.channels).2.flagRtProcess ∧
    (finalizeProps st).captureProps.get "node.group" = some st.groupName ∧
    (finalizeProps st).playbackProps.get "node.group" = some st.groupName := by
  obtain ⟨hg1, hg2, _⟩ := finalizeProps_get st
  exact ⟨rfl, rfl, rfl, rfl, rfl, rfl, rfl, hg1, hg2⟩

/-! ## Null-sink stage lemmas -/

theorem nullSinkNameStep_get_ne (p : Props) (k : String)
    (h1 : k ≠ "node.name") (h2 : k ≠ "sink_name") :
    (nullSinkNameStep p).get k = p.get k := by
  unfold nullSinkNameStep
  cases hs : p.get "sink_name" with
  | none =>
      simp only [hs]
      rw [Props.get_set, if_neg (fun hh => h1 hh.symm)]
  | some s =>
      simp only [hs]
      rw [Props.get_remove, if_neg (fun hh => h2 hh.symm),
        Props.get_set, if_neg (fun hh => h1 hh.symm)]

theorem nullSinkNameStep_nodeName (p : Props) :
    (nullSinkNameStep p).get "node.name" = some ((p.get "sink_name").getD "null") := by
  unfold nullSinkNameStep
  cases hs : p.get "sink_name" with
  | none =>
      simp only [hs]
      rw [Props.get_set, if_pos rfl]
      rfl
  | some s =>
      simp only [hs]
      rw [Props.get_remove, if_neg (by decide), Props.get_set, if_pos rfl]
      rfl

theorem nullSinkNameStep_sinkName (p : Props) :
    (nullSinkNameStep p).get "sink_name" = none := by
  unfold nullSinkNameStep
  cases hs : p.get "sink_name" with
  | none =>
      simp only [hs]
      rw [Props.get_set, if_neg (by decide)]
      exact hs
  | some s =>
      simp only [hs]
      rw [Props.get_remove, if_pos rfl]

theorem nullSinkPropsStep_get_notin (parse : String → List (String × String))
    (p : Props) (k : String) (hk : k ≠ "sink_properties")
    (h : ∀ kv ∈ ((p.get "sink_properties").map parse).getD [], kv.1 ≠ k) :
    (nullSinkPropsStep parse p).get k = p.get k := by
  unfold nullSinkPropsStep
  cases hs : p.get "sink_properties" with
  | none => simp only [hs]
  | some s =>
      rw [hs] at h
      simp only [Option.map_some', Option.getD_some] at h
      simp only [hs]
      rw [Props.get_remove, if_neg (fun hh => hk hh.symm)]
      exact Props.get_update_notin p (parse s) k h

theorem nullSinkPropsStep_sinkProps (parse : String → List (String × String))
    (p : Props) : (nullSinkPropsStep parse p).get "sink_properties" = none := by
  unfold nullSinkPropsStep
  cases hs : p.get "sink_properties" with
  | none => simp only [hs]
  | some s =>
      simp only [hs]
      rw [Props.get_remove, if_pos rfl]

theorem nullSinkChannelsStep_get_ne (defs : NullSinkDefaults) (p : Props) (k : String)
    (h1 : k ≠ "audio.channels") (h2 : k ≠ "channels") :
    ((nullSinkChannelsStep defs p).1).get k = p.get k := by
  unfold nullSinkChannelsStep
  cases hs : p.get "channels" with
  | none =>
      simp only [hs]
      rw [Props.get_set, if_neg (fun hh => h1 hh.symm)]
  | some s =>
      simp only [hs]
      rw [Props.get_remove, if_neg (fun hh => h2 hh.symm),
        Props.get_set, if_neg (fun hh => h1 hh.symm)]

theorem nullSinkChannelsStep_channels (defs : NullSinkDefaults) (p : Props) :
    ((nullSinkChannelsStep defs p).1).get "channels" = none := by
  unfold nullSinkChannelsStep
  cases hs : p.get "channels" with
  | none =>
      simp only [hs]
      rw [Props.get_set, if_neg (by decide)]
      exact hs
  | some s =>
      simp only [hs]
      rw [Props.get_remove, if_pos rfl]

theorem nullSinkRateStep_get_ne (p : Props) (k : String)
    (h1 : k ≠ "audio.rate") (h2 : k ≠ "rate") :
    (nullSinkRateStep p).get k = p.get k := by
  unfold nullSinkRateStep
  cases hs : p.get "rate" with
  | none => simp only [hs]
  | some s =>
      simp only [hs]
      rw [Props.get_remove, if_neg (fun hh => h2 hh.symm),
        Props.get_set, if_neg (fun hh => h1 hh.symm)]

theorem nullSinkRateStep_rate (p : Props) :
    (nullSinkRateStep p).get "rate" = none := by
  unfold nullSinkRateStep
  cases hs : p.get "rate" with
  | none => simp only [hs]
  | some s =>
      simp only [hs]
      rw [Props.get_remove, if_pos rfl]

theorem nullSinkMapStep_get_ne (parseMap : String → ChannelMap)
    (defs : NullSinkDefaults) (channels : Nat) (p : Props) (k : String)
    (h : k ≠ "channel_map") :
    ((nullSinkMapStep parseMap defs channels p).1).get k = p.get k := by
  unfold nullSinkMapStep
  cases hs : p.get "channel_map" with
  | none => simp only [hs]
  | some s =>
      simp only [hs]
      rw [Props.get_remove, if_neg (fun hh => h hh.symm)]

theorem nullSinkMapStep_channelMap (parseMap : String → ChannelMap)
    (defs : NullSinkDefaults) (channels : Nat) (p : Props) :
    ((nullSinkMapStep parseMap defs channels p).1).get "channel_map" = none := by
  unfold nullSinkMapStep
  cases hs : p.get "channel_map" with
  | none => simp only [hs]
  | some s =>
      simp only [hs]
      rw [Props.get_remove, if_pos rfl]

theorem nullSinkPositionStep_get_ne (map : ChannelMap) (p : Props) (k : String)
    (h : k ≠ "audio.position") :
    (nullSinkPositionStep map p).get k = p.get k := by
  unfold nullSinkPositionStep
  by_cases hc : map.channels > 0
  · rw [if_pos hc, Props.get_set, if_neg (fun hh => h hh.symm)]
  · rw [if_neg hc]

theorem nullSinkClassStep_get_ne (p : Props) (k : String) (h : k ≠ "media.class") :
    (nullSinkClassStep p).get k = p.get k := by
  unfold nullSinkClassStep
  cases hs : p.get "media.class" with
  | none =>
      simp only [hs]
      rw [Props.get_set, if_neg (fun hh => h hh.symm)]
  | some s => simp only [hs]

theorem nullSinkClassStep_class (p : Props) :
    (nullSinkClassStep p).get "media.class"
      = some ((p.get "media.class").getD "Audio/Sink") := by
  unfold nullSinkClassStep
  cases hs : p.get "media.class" with
  | none =>
      simp only [hs]
      rw [Props.get_set, if_pos rfl]
      rfl
  | some s =>
      simp only [hs]
      rfl

theorem nullSinkDescriptionStep_get_ne (p : Props) (k : String)
    (h3 : k ≠ "node.description") (h4 : k ≠ "device.description") :
    (nullSinkDescriptionStep p).get k = p.get k := by
  unfold nullSinkDescriptionStep
  cases hs : p.get "device.description" with
  | none =>
      simp only [hs]
      rw [Props.get_set, if_neg (fun hh => h3 hh.symm)]
  | some s =>
      simp only [hs]
      rw [Props.get_remove, if_neg (fun hh => h4 hh.symm),
        Props.get_set, if_neg (fun hh => h3 hh.symm)]

theorem nullSinkFinish_get_ne (p : Props) (map : ChannelMap) (k : String)
    (h1 : k ≠ "audio.position") (h2 : k ≠ "media.class")
    (h3 : k ≠ "node.description") (h4 : k ≠ "device.description")
    (h5 : k ≠ "factory.name") (h6 : k ≠ "object.linger") :
    (nullSinkFinish p map).get k = p.get k := by
  unfold nullSinkFinish
  rw [Props.get_set, if_neg (fun hh => h6 hh.symm),
    Props.get_set, if_neg (fun hh => h5 hh.symm),
    nullSinkDescriptionStep_get_ne _ _ h3 h4,
    nullSinkClassStep_get_ne _ _ h2,
    nullSinkPositionStep_get_ne _ _ _ h1]

theorem nullSinkFinish_factory (p : Props) (map : ChannelMap) :
    (nullSinkFinish p map).get "factory.name" = some "support.null-audio-sink" := by
  unfold nullSinkFinish
  rw [Props.get_set, if_neg (by decide), Props.get_set, if_pos rfl]

theorem nullSinkFinish_linger (p : Props) (map : ChannelMap) :
    (nullSinkFinish p map).get "object.linger" = some "true" := by
  unfold nullSinkFinish
  rw [Props.get_set, if_pos rfl]

theorem nullSinkFinish_class (p : Props) (map : ChannelMap) :
    (nullSinkFinish p map).get "media.class"
      = some ((p.get "media.class").getD "Audio/Sink") := by
  unfold nullSinkFinish
  rw [Props.get_set, if_neg (by decide), Props.get_set, if_neg (by decide),
    nullSinkDescriptionStep_get_ne _ _ (by decide) (by decide),
    nullSinkClassStep_class,
    nullSinkPositionStep_get_ne _ _ _ (by decide)]

theorem nullSinkResolve_get (parse : String → List (String × String))
    (parseMap : String → ChannelMap) (defs : NullSinkDefaults)
    (argument : Option String) (k : String)
    (ha : k ≠ "audio.channels") (hb : k ≠ "channels") (hc : k ≠ "audio.rate")
    (hd : k ≠ "rate") (he : k ≠ "channel_map") :
    ((nullSinkResolve parse parseMap defs argument).1).get k
      = (nullSinkPropsStep parse (nullSinkNameStep (nullSinkArgProps parse argument))).get k := by
  simp only [nullSinkResolve]
  rw [nullSinkMapStep_get_ne _ _ _ _ _ he, nullSinkRateStep_get_ne _ _ hc hd,
    nullSinkChannelsStep_get_ne _ _ _ ha hb]

theorem nullSinkResolve_channels (parse : String → List (String × String))
    (parseMap : String → ChannelMap) (defs : NullSinkDefaults)
    (argument : Option String) :
    ((nullSinkResolve parse parseMap defs argument).1).get "channels" = none := by
  simp only [nullSinkResolve]
  rw [nullSinkMapStep_get_ne _ _ _ _ _ (by decide),
    nullSinkRateStep_get_ne _ _ (by decide) (by decide),
    nullSinkChannelsStep_channels]

theorem nullSinkResolve_rate (parse : String → List (String × String))
    (parseMap : String → ChannelMap) (defs : NullSinkDefaults)
    (argument : Option String) :
    ((nullSinkResolve parse parseMap defs argument).1).get "rate" = none := by
  simp only [nullSinkResolve]
  rw [nullSinkMapStep_get_ne _ _ _ _ _ (by decide), nullSinkRateStep_rate]

theorem nullSinkResolve_channelMap (parse : String → List (String × String))
    (parseMap : String → ChannelMap) (defs : NullSinkDefaults)
    (argument : Option String) :
    ((nullSinkResolve parse parseMap defs argument).1).get "channel_map" = none := by
  simp only [nullSinkResolve]
  rw [nullSinkMapStep_channelMap]

/-! ## Claims about the null-sink factory -/

/-- C10 counterexample: the argument `sink_properties="sink_name=foo"`
leaves `sink_name=foo` in the final dictionary — the `sink_properties`
expansion runs after `sink_name` was consumed, so the key is NOT removed
on every successful run. -/
theorem null_sink_sink_name_leak_cex :
    (create_module_null_sink leakParse nullMapParse stereoDefaults
        (some "sink_properties=\"sink_name=foo\"")).map (fun p => p.get "sink_name")
      = Except.ok (some "foo") := by
  rfl

/-- C10 amended: on every successful run the final dictionary carries
`factory.name = support.null-audio-sink`, `object.linger = true`, a
`node.name` (the argument's `sink_name` or the default `null`) and a
`media.class` defaulting to `Audio/Sink`; the keys `sink_properties`,
`channels`, `rate` and `channel_map` are always consumed; `sink_name` is
consumed too PROVIDED the `sink_properties` expansion — which runs after
`sink_name` has been resolved — does not itself define `sink_name` or
`node.name`; the modelled failure path (map length mismatch) sets errno to
EINVAL. -/
theorem null_sink_final_props (parse : String → List (String × String))
    (parseMap : String → ChannelMap) (defs : NullSinkDefaults)
    (argument : Option String) (props : Props)
    (hok : create_module_null_sink parse parseMap defs argument = Except.ok props)
    (hsp : ∀ kv ∈ (((nullSinkNameStep (nullSinkArgProps parse argument)).get
        "sink_properties").map parse).getD [],
      kv.1 ≠ "sink_name" ∧ kv.1 ≠ "node.name") :
    props.get "factory.name" = some "support.null-audio-sink" ∧
    props.get "object.linger" = some "true" ∧
    props.get "node.name"
      = some (((nullSinkArgProps parse argument).get "sink_name").getD "null") ∧
    props.get "media.class"
      = some ((((nullSinkResolve parse parseMap defs argument).1).get
          "media.class").getD "Audio/Sink") ∧
    props.get "sink_name" = none ∧
    props.get "sink_properties" = none ∧
    props.get "channels" = none ∧
    props.get "rate" = none ∧
    props.get "channel_map" = none := by
  unfold create_module_null_sink at hok
  by_cases hc : (nullSinkResolve parse parseMap defs argument).2.2.channels
      ≠ (nullSinkResolve parse parseMap defs argument).2.1
  · rw [if_pos hc] at hok
    exact absurd hok (by simp)
  · rw [if_neg hc] at hok
    have hp : nullSinkFinish (nullSinkResolve parse parseMap defs argument).1
        (nullSinkResolve parse parseMap defs argument).2.2 = props := Except.ok.inj hok
    subst hp
    refine ⟨nullSinkFinish_factory _ _, nullSinkFinish_linger _ _, ?_, ?_, ?_, ?_, ?_, ?_, ?_⟩
    · rw [nullSinkFinish_get_ne _ _ _ (by decide) (by decide) (by decide) (by decide)
        (by decide) (by decide),
        nullSinkResolve_get _ _ _ _ _ (by decide) (by decide) (by decide) (by decide)
          (by decide),
        nullSinkPropsStep_get_notin parse _ _ (by decide) (fun kv hm => (hsp kv hm).2),
        nullSinkNameStep_nodeName]
    · rw [nullSinkFinish_class]
    · rw [nullSinkFinish_get_ne _ _ _ (by decide) (by decide) (by decide) (by decide)
        (by decide) (by decide),
        nullSinkResolve_get _ _ _ _ _ (by decide) (by decide) (by decide) (by decide)
          (by decide),
        nullSinkPropsStep_get_notin parse _ _ (by decide) (fun kv hm => (hsp kv hm).1),
        nullSinkNameStep_sinkName]
    · rw [nullSinkFinish_get_ne _ _ _ (by decide) (by decide) (by decide) (by decide)
        (by decide) (by decide),
        nullSinkResolve_get _ _ _ _ _ (by decide) (by decide) (by decide) (by decide)
          (by decide),
        nullSinkPropsStep_sinkProps]
    · rw [nullSinkFinish_get_ne _ _ _ (by decide) (by decide) (by decide) (by decide)
        (by decide) (by decide),
        nullSinkResolve_channels]
    · rw [nullSinkFinish_get_ne _ _ _ (by decide) (by decide) (by decide) (by decide)
        (by decide) (by decide),
        nullSinkResolve_rate]
    · rw [nullSinkFinish_get_ne _ _ _ (by decide) (by decide) (by decide) (by decide)
        (by decide) (by decide),
        nullSinkResolve_channelMap]

/-- C10 amended witness: the no-argument run on a stereo daemon. -/
theorem null_sink_final_props_witness :
    nullDefaultProps.get "factory.name" = some "support.null-audio-sink" ∧
    nullDefaultProps.get "node.name" = some "null" ∧
    nullDefaultProps.get "sink_name" = none ∧
    nullDefaultProps.get "channels" = none ∧
    nullDefaultProps.get "channel_map" = none := by
  have h := null_sink_final_props emptyBagParse nullMapParse stereoDefaults none
    nullDefaultProps rfl (by decide)
  exact ⟨h.1, h.2.2.1.trans rfl, h.2.2.2.2.1, h.2.2.2.2.2.2.1, h.2.2.2.2.2.2.2.2⟩

end PW
